import Mathlib

/-!
Shallow embedding of the `Attendance` contract (`src/contracts/attendance.sol`).

Identities (Solidity `address`) are modelled as natural numbers with `0` as
the null-identity sentinel.  Solidity mappings are total functions returning
the zero value of their range type, matching EVM storage semantics; a revert
is modelled as `Except.error e`, which by revert semantics leaves the caller
holding the unchanged pre-state.
-/

namespace Attendance

abbrev Address := Nat

/-- The `Student` struct of the contract. -/
structure Student where
  matricNumber : String
  name : String
  isRegistered : Bool
  registrationDate : Nat
  deriving Repr, DecidableEq

/-- The `AttendanceRecord` struct of the contract. -/
structure AttendanceRecord where
  timestamp : Nat
  isPresent : Bool
  matricNumber : String
  deriving Repr, DecidableEq

/-- Error kinds surfaced by reverting `require` statements, named as in the
specification's error taxonomy. -/
inductive Err where
  | Unauthorized
  | InvalidArgument
  | AlreadyExists
  | NotRegistered
  | AlreadyMarked
  | SystemInactive
  | NotFound
  deriving Repr, DecidableEq

/-- The contract's storage: `admin`, `isSystemActive`, the four mappings, the
`registeredUsers` array and the registration counter `count`. -/
structure State where
  admin : Address
  isSystemActive : Bool
  students : Address → Student
  matricToAddress : String → Address
  attendanceRecords : Address → Nat → AttendanceRecord
  attendanceCount : Address → Nat
  registeredUsers : List Address
  count : Nat

/-- Storage default for `Student` (all fields zero-valued). -/
def Student.zero : Student := ⟨"", "", false, 0⟩

/-- Storage default for `AttendanceRecord` (all fields zero-valued). -/
def AttendanceRecord.zero : AttendanceRecord := ⟨0, false, ""⟩

/-- The constructor: the creating caller becomes `admin`, the system starts
active, and every mapping holds its zero value. -/
def initState (creator : Address) : State :=
  { admin := creator
    isSystemActive := true
    students := fun _ => Student.zero
    matricToAddress := fun _ => 0
    attendanceRecords := fun _ _ => AttendanceRecord.zero
    attendanceCount := fun _ => 0
    registeredUsers := []
    count := 0 }

/-- Seconds in `1 days`. -/
def ONE_DAY : Nat := 86400

/-- `registerUser(user, matricNumber, name)`, called by `caller` at time
`now` (`block.timestamp`).  Guards in source order: `onlyAdmin`, non-null
address, non-empty matric number, non-empty name, user not yet registered,
matric number unbound. -/
def registerUser (s : State) (caller user : Address)
    (matricNumber name : String) (now : Nat) : Except Err State :=
  if caller ≠ s.admin then .error .Unauthorized
  else if user = 0 then .error .InvalidArgument
  else if matricNumber = "" then .error .InvalidArgument
  else if name = "" then .error .InvalidArgument
  else if (s.students user).isRegistered then .error .AlreadyExists
  else if s.matricToAddress matricNumber ≠ 0 then .error .AlreadyExists
  else .ok { s with
    students := Function.update s.students user
      ⟨matricNumber, name, true, now⟩
    matricToAddress := Function.update s.matricToAddress matricNumber user
    registeredUsers := s.registeredUsers ++ [user]
    count := s.count + 1 }

/-- `markAttendance()`, called by `caller` at time `now`.  Guards in source
order: `systemActive`, caller registered, no record yet for today. -/
def markAttendance (s : State) (caller : Address) (now : Nat) :
    Except Err State :=
  if ¬ s.isSystemActive then .error .SystemInactive
  else if ¬ (s.students caller).isRegistered then .error .NotRegistered
  else if (s.attendanceRecords caller (now / ONE_DAY)).isPresent then
    .error .AlreadyMarked
  else .ok { s with
      attendanceRecords := Function.update s.attendanceRecords caller
        (Function.update (s.attendanceRecords caller) (now / ONE_DAY)
          ⟨now, true, (s.students caller).matricNumber⟩)
      attendanceCount := Function.update s.attendanceCount caller
        (s.attendanceCount caller + 1) }

/-- `toggleSystem()`, called by `caller`: `onlyAdmin`, then flips the flag. -/
def toggleSystem (s : State) (caller : Address) : Except Err State :=
  if caller ≠ s.admin then .error .Unauthorized
  else .ok { s with isSystemActive := !s.isSystemActive }

/-- `verifyAttendance(user, date)`. -/
def verifyAttendance (s : State) (user : Address) (date : Nat) : Bool :=
  (s.attendanceRecords user date).isPresent

/-- `getAttendanceCount(user)`. -/
def getAttendanceCount (s : State) (user : Address) : Nat :=
  s.attendanceCount user

/-- `getAttendanceRecord(user, date)` → `(timestamp, isPresent)`. -/
def getAttendanceRecord (s : State) (user : Address) (date : Nat) :
    Nat × Bool :=
  ((s.attendanceRecords user date).timestamp,
   (s.attendanceRecords user date).isPresent)

/-- `getRegisteredUsers()`. -/
def getRegisteredUsers (s : State) : List Address :=
  s.registeredUsers

/-- `getRegistrationCount` (the public counter `count`). -/
def getRegistrationCount (s : State) : Nat :=
  s.count

/-- `getStudentByAddress(studentAddress)` →
`(matricNumber, name, isRegistered, registrationDate)`; never fails. -/
def getStudentByAddress (s : State) (studentAddress : Address) :
    String × String × Bool × Nat :=
  ((s.students studentAddress).matricNumber,
   (s.students studentAddress).name,
   (s.students studentAddress).isRegistered,
   (s.students studentAddress).registrationDate)

/-- `getStudentAddressByMatric(matricNumber)`; reverts (`NotFound`) on the
null address. -/
def getStudentAddressByMatric (s : State) (matricNumber : String) :
    Except Err Address :=
  let studentAddress := s.matricToAddress matricNumber
  if studentAddress = 0 then .error .NotFound
  else .ok studentAddress

/-- `getStudentByMatric(matricNumber)` →
`(studentAddress, name, isRegistered, registrationDate)`; reverts
(`NotFound`) if the matric number resolves to the null address. -/
def getStudentByMatric (s : State) (matricNumber : String) :
    Except Err (Address × String × Bool × Nat) :=
  let studentAddress := s.matricToAddress matricNumber
  if studentAddress = 0 then .error .NotFound
  else .ok (studentAddress,
    (s.students studentAddress).name,
    (s.students studentAddress).isRegistered,
    (s.students studentAddress).registrationDate)

/-- One external call to the contract. -/
inductive Op where
  | register (caller user : Address) (matricNumber name : String) (now : Nat)
  | mark (caller : Address) (now : Nat)
  | toggle (caller : Address)

/-- Resulting state of a call: the new state on success, the unchanged
pre-state on revert. -/
def execOp (s : State) : Op → State
  | .register caller user matricNumber name now =>
      match registerUser s caller user matricNumber name now with
      | .ok s' => s'
      | .error _ => s
  | .mark caller now =>
      match markAttendance s caller now with
      | .ok s' => s'
      | .error _ => s
  | .toggle caller =>
      match toggleSystem s caller with
      | .ok s' => s'
      | .error _ => s

/-- States reachable from some initial (freshly constructed) state by any
sequence of external calls. -/
inductive Reachable : State → Prop where
  | init (creator : Address) : Reachable (initState creator)
  | step {s : State} (op : Op) : Reachable s → Reachable (execOp s op)

/-- The set of day-indices at which an attendance record exists for `a`. -/
def markedDays (s : State) (a : Address) : Set Nat :=
  {d : Nat | (s.attendanceRecords a d).isPresent = true}

/-- State invariants maintained by every external call. -/
structure Inv (s : State) : Prop where
  matricBound : ∀ m, s.matricToAddress m ≠ 0 →
    (s.students (s.matricToAddress m)).matricNumber = m ∧
    (s.students (s.matricToAddress m)).isRegistered = true
  emptyUnbound : s.matricToAddress "" = 0
  countLen : s.count = s.registeredUsers.length
  daysFinite : ∀ a, (markedDays s a).Finite
  countDays : ∀ a, s.attendanceCount a = (markedDays s a).ncard

/-- All state components except the active flag, as one tuple. -/
def nonFlagView (s : State) :
    Address × (Address → Student) × (String → Address) ×
    (Address → Nat → AttendanceRecord) × (Address → Nat) ×
    List Address × Nat :=
  (s.admin, s.students, s.matricToAddress, s.attendanceRecords,
   s.attendanceCount, s.registeredUsers, s.count)

/-- `toggleSystem` as invoked by the current owner (always succeeds). -/
def toggleByAdmin (s : State) : State := execOp s (.toggle s.admin)

/-- Concrete test state: fresh ledger created by identity `1`. -/
def wS0 : State := initState 1

/-- Concrete test state: identity `2` registered by the owner. -/
def wReg : State := execOp wS0 (.register 1 2 "CSC001" "Alice" 100)

/-- Concrete test state: `wReg` after the owner deactivates the system. -/
def wInactive : State := execOp wReg (.toggle 1)

/-- Concrete test state: `wInactive` after the owner reactivates the
system. -/
def wReactivated : State := execOp wInactive (.toggle 1)

/-- Concrete test state: `wReg` after identity `2` marks attendance at
time `100000`. -/
def wMarked : State := execOp wReg (.mark 2 100000)

theorem inv_init (creator : Address) : Inv (initState creator) := by
  refine ⟨?_, rfl, rfl, ?_, ?_⟩
  · intro m hm
    exact absurd rfl hm
  · intro a
    have : markedDays (initState creator) a = ∅ := by
      ext d
      simp [markedDays, initState, AttendanceRecord.zero]
    simp [this]
  · intro a
    show (initState creator).attendanceCount a =
      (markedDays (initState creator) a).ncard
    have h0 : markedDays (initState creator) a = ∅ := by
      ext d
      simp [markedDays, initState, AttendanceRecord.zero]
    rw [h0]
    simp [initState]

theorem inv_registerUser {s s' : State} {caller user : Address}
    {matricNumber name : String} {now : Nat}
    (hInv : Inv s)
    (hok : registerUser s caller user matricNumber name now = .ok s') :
    Inv s' := by
  unfold registerUser at hok
  split at hok
  · exact absurd hok (by simp)
  split at hok
  · exact absurd hok (by simp)
  split at hok
  · exact absurd hok (by simp)
  split at hok
  · exact absurd hok (by simp)
  split at hok
  · exact absurd hok (by simp)
  split at hok
  · exact absurd hok (by simp)
  rename_i huser hmat hname hreg hbound
  simp only [Except.ok.injEq] at hok
  subst hok
  push_neg at hbound
  refine ⟨?_, ?_, ?_, hInv.daysFinite, hInv.countDays⟩
  · intro m hm
    simp only [Function.update_apply] at hm ⊢
    by_cases hmm : m = matricNumber
    · subst hmm
      simp only [if_pos rfl] at hm ⊢
      simp [huser]
    · simp only [if_neg hmm] at hm ⊢
      have hold := hInv.matricBound m hm
      have hne : s.matricToAddress m ≠ user := by
        intro he
        rw [he] at hold
        exact hreg hold.2
      simp [if_neg hne, hold.1, hold.2]
  · simp only [Function.update_apply]
    rw [if_neg (fun he => hmat he.symm)]
    exact hInv.emptyUnbound
  · simp [hInv.countLen]

theorem markedDays_eq_insert {s s' : State} {caller : Address} {today : Nat}
    {rec : AttendanceRecord} (hrec : rec.isPresent = true)
    (h : s'.attendanceRecords = Function.update s.attendanceRecords caller
      (Function.update (s.attendanceRecords caller) today rec)) :
    markedDays s' caller = insert today (markedDays s caller) := by
  ext d
  simp only [markedDays, Set.mem_setOf_eq, Set.mem_insert_iff, h,
    Function.update_same, Function.update_apply]
  by_cases hd : d = today
  · subst hd
    simp [hrec]
  · simp [hd]

theorem markedDays_eq_of_ne {s s' : State} {caller a : Address}
    {g : Nat → AttendanceRecord}
    (h : s'.attendanceRecords = Function.update s.attendanceRecords caller g)
    (ha : a ≠ caller) : markedDays s' a = markedDays s a := by
  ext d
  simp [markedDays, h, Function.update_apply, ha]

/-- Field-level description of a successful `markAttendance` call. -/
theorem markAttendance_ok {s s' : State} {caller : Address} {now : Nat}
    (hok : markAttendance s caller now = .ok s') :
    s.isSystemActive = true ∧
    (s.students caller).isRegistered = true ∧
    (s.attendanceRecords caller (now / ONE_DAY)).isPresent = false ∧
    s'.admin = s.admin ∧
    s'.isSystemActive = s.isSystemActive ∧
    s'.students = s.students ∧
    s'.matricToAddress = s.matricToAddress ∧
    s'.attendanceRecords = Function.update s.attendanceRecords caller
      (Function.update (s.attendanceRecords caller) (now / ONE_DAY)
        ⟨now, true, (s.students caller).matricNumber⟩) ∧
    s'.attendanceCount = Function.update s.attendanceCount caller
      (s.attendanceCount caller + 1) ∧
    s'.registeredUsers = s.registeredUsers ∧
    s'.count = s.count := by
  unfold markAttendance at hok
  split at hok
  · exact absurd hok (by simp)
  split at hok
  · exact absurd hok (by simp)
  split at hok
  · exact absurd hok (by simp)
  rename_i hact hreg hnot
  simp only [Except.ok.injEq] at hok
  push_neg at hact hreg
  refine ⟨hact, hreg, by simpa using hnot, ?_, ?_, ?_, ?_, ?_, ?_, ?_, ?_⟩
  all_goals rw [← hok]

theorem inv_markAttendance {s s' : State} {caller : Address} {now : Nat}
    (hInv : Inv s)
    (hok : markAttendance s caller now = .ok s') :
    Inv s' := by
  obtain ⟨hact, hreg, hnot, hadmin, hflag, hstud, hmat, hrecords, hcnt,
    husers, hcount⟩ := markAttendance_ok hok
  refine ⟨?_, ?_, ?_, ?_, ?_⟩
  · intro m hm
    rw [hmat] at hm ⊢
    rw [hstud]
    exact hInv.matricBound m hm
  · rw [hmat]
    exact hInv.emptyUnbound
  · rw [hcount, husers]
    exact hInv.countLen
  · intro a
    by_cases ha : a = caller
    · subst ha
      rw [markedDays_eq_insert rfl hrecords]
      exact (hInv.daysFinite a).insert _
    · rw [markedDays_eq_of_ne hrecords ha]
      exact hInv.daysFinite a
  · intro a
    rw [hcnt]
    by_cases ha : a = caller
    · subst ha
      rw [markedDays_eq_insert rfl hrecords, Function.update_same,
        Set.ncard_insert_of_not_mem (by simpa [markedDays] using hnot)
          (hInv.daysFinite a), hInv.countDays a]
    · rw [Function.update_apply, if_neg ha, markedDays_eq_of_ne hrecords ha]
      exact hInv.countDays a

theorem inv_toggleSystem {s s' : State} {caller : Address}
    (hInv : Inv s)
    (hok : toggleSystem s caller = .ok s') :
    Inv s' := by
  unfold toggleSystem at hok
  split at hok
  · exact absurd hok (by simp)
  simp only [Except.ok.injEq] at hok
  subst hok
  exact ⟨hInv.matricBound, hInv.emptyUnbound, hInv.countLen,
    hInv.daysFinite, hInv.countDays⟩

theorem inv_execOp {s : State} (hInv : Inv s) (op : Op) :
    Inv (execOp s op) := by
  cases op with
  | register caller user matricNumber name now =>
    simp only [execOp]
    cases h : registerUser s caller user matricNumber name now with
    | ok s' => exact inv_registerUser hInv h
    | error e => exact hInv
  | mark caller now =>
    simp only [execOp]
    cases h : markAttendance s caller now with
    | ok s' => exact inv_markAttendance hInv h
    | error e => exact hInv
  | toggle caller =>
    simp only [execOp]
    cases h : toggleSystem s caller with
    | ok s' => exact inv_toggleSystem hInv h
    | error e => exact hInv

theorem reachable_inv {s : State} (h : Reachable s) : Inv s := by
  induction h with
  | init creator => exact inv_init creator
  | step op _ ih => exact inv_execOp ih op

/-- Field-level description of a successful `registerUser` call. -/
theorem registerUser_ok {s s' : State} {caller user : Address}
    {matricNumber name : String} {now : Nat}
    (hok : registerUser s caller user matricNumber name now = .ok s') :
    caller = s.admin ∧ user ≠ 0 ∧ matricNumber ≠ "" ∧ name ≠ "" ∧
    (s.students user).isRegistered = false ∧
    s.matricToAddress matricNumber = 0 ∧
    s'.admin = s.admin ∧
    s'.isSystemActive = s.isSystemActive ∧
    s'.students = Function.update s.students user
      ⟨matricNumber, name, true, now⟩ ∧
    s'.matricToAddress = Function.update s.matricToAddress matricNumber
      user ∧
    s'.attendanceRecords = s.attendanceRecords ∧
    s'.attendanceCount = s.attendanceCount ∧
    s'.registeredUsers = s.registeredUsers ++ [user] ∧
    s'.count = s.count + 1 := by
  unfold registerUser at hok
  split at hok
  · exact absurd hok (by simp)
  split at hok
  · exact absurd hok (by simp)
  split at hok
  · exact absurd hok (by simp)
  split at hok
  · exact absurd hok (by simp)
  split at hok
  · exact absurd hok (by simp)
  split at hok
  · exact absurd hok (by simp)
  rename_i hadm huser hmat hname hreg hbound
  simp only [Except.ok.injEq] at hok
  push_neg at hadm hbound
  refine ⟨hadm, huser, hmat, hname, by simpa using hreg, hbound,
    ?_, ?_, ?_, ?_, ?_, ?_, ?_, ?_⟩
  all_goals rw [← hok]

/-- Field-level description of a successful `toggleSystem` call. -/
theorem toggleSystem_ok {s s' : State} {caller : Address}
    (hok : toggleSystem s caller = .ok s') :
    caller = s.admin ∧
    s'.isSystemActive = !s.isSystemActive ∧
    nonFlagView s' = nonFlagView s := by
  unfold toggleSystem at hok
  split at hok
  · exact absurd hok (by simp)
  rename_i hadm
  push_neg at hadm
  simp only [Except.ok.injEq] at hok
  refine ⟨hadm, by rw [← hok], ?_⟩
  rw [← hok]
  rfl

/-- `toggleSystem` invoked by the current owner always succeeds and flips
exactly the active flag. -/
theorem toggleSystem_admin (s : State) :
    toggleSystem s s.admin =
      .ok { s with isSystemActive := !s.isSystemActive } := by
  unfold toggleSystem
  rw [if_neg (fun hne => hne rfl)]

theorem toggleByAdmin_eq (s : State) :
    toggleByAdmin s = { s with isSystemActive := !s.isSystemActive } := by
  simp only [toggleByAdmin, execOp, toggleSystem_admin]

/-- C1: in every reachable state, for every matric number bound to some
identity, `getStudentByMatric` returns the resolved identity together with
the name, registration status and registration timestamp that
`getStudentByAddress` reports for the resolved identity, whose
matric-number component in turn equals the queried matric number; for
every unbound matric number it fails with `NotFound`. -/
theorem getStudentByMatric_agrees (s : State) (h : Reachable s)
    (matricNumber : String) :
    (s.matricToAddress matricNumber ≠ 0 →
      getStudentAddressByMatric s matricNumber =
        .ok (s.matricToAddress matricNumber) ∧
      getStudentByMatric s matricNumber =
        .ok (s.matricToAddress matricNumber,
          (getStudentByAddress s (s.matricToAddress matricNumber)).2) ∧
      (getStudentByAddress s (s.matricToAddress matricNumber)).1 =
        matricNumber) ∧
    (s.matricToAddress matricNumber = 0 →
      getStudentByMatric s matricNumber = .error .NotFound) := by
  constructor
  · intro hne
    refine ⟨?_, ?_, ?_⟩
    · simp [getStudentAddressByMatric, hne]
    · simp [getStudentByMatric, getStudentByAddress, hne]
    · exact ((reachable_inv h).matricBound matricNumber hne).1
  · intro h0
    simp [getStudentByMatric, h0]

/-- C1 witness: the claim instantiated on a ledger in which the owner has
registered identity `2` under matric number `CSC001`. -/
theorem getStudentByMatric_agrees_witness :
    wReg.matricToAddress "CSC001" ≠ 0 ∧
    ((wReg.matricToAddress "CSC001" ≠ 0 →
      getStudentAddressByMatric wReg "CSC001" =
        .ok (wReg.matricToAddress "CSC001") ∧
      getStudentByMatric wReg "CSC001" =
        .ok (wReg.matricToAddress "CSC001",
          (getStudentByAddress wReg (wReg.matricToAddress "CSC001")).2) ∧
      (getStudentByAddress wReg (wReg.matricToAddress "CSC001")).1 =
        "CSC001") ∧
     (wReg.matricToAddress "CSC001" = 0 →
      getStudentByMatric wReg "CSC001" = .error .NotFound)) :=
  ⟨by decide,
   getStudentByMatric_agrees wReg
     (Reachable.step (Op.register 1 2 "CSC001" "Alice" 100)
       (Reachable.init 1)) "CSC001"⟩

/-- C2: in every reachable state, the attendance counter of every identity
equals the number of day-indices at which an attendance record for that
identity is present. -/
theorem attendanceCount_eq_markedDays_ncard (s : State) (h : Reachable s)
    (a : Address) :
    getAttendanceCount s a = (markedDays s a).ncard :=
  (reachable_inv h).countDays a

/-- C2 witness: the claim instantiated on a ledger in which identity `2`
has marked attendance once. -/
theorem attendanceCount_eq_markedDays_ncard_witness :
    getAttendanceCount wMarked 2 = (markedDays wMarked 2).ncard :=
  attendanceCount_eq_markedDays_ncard wMarked
    (Reachable.step (Op.mark 2 100000)
      (Reachable.step (Op.register 1 2 "CSC001" "Alice" 100)
        (Reachable.init 1))) 2

/-- C3: for a registered identity, system active and no prior attendance
records for it: the first `markAttendance` call succeeds; a second call
whose timestamp maps to the same day-index fails with `AlreadyMarked`,
leaving the attendance count at 1; a call whose timestamp maps to a
different day-index succeeds. -/
theorem markAttendance_same_day_rejected (s : State) (a : Address)
    (now now' now'' : Nat)
    (hact : s.isSystemActive = true)
    (hreg : (s.students a).isRegistered = true)
    (hfresh : ∀ d, (s.attendanceRecords a d).isPresent = false)
    (hcnt : s.attendanceCount a = 0)
    (hsame : now' / ONE_DAY = now / ONE_DAY)
    (hdiff : now'' / ONE_DAY ≠ now / ONE_DAY) :
    ∃ s', markAttendance s a now = .ok s' ∧
      markAttendance s' a now' = .error .AlreadyMarked ∧
      s'.attendanceCount a = 1 ∧
      ∃ s'', markAttendance s' a now'' = .ok s'' := by
  have h1 : markAttendance s a now = .ok { s with
      attendanceRecords := Function.update s.attendanceRecords a
        (Function.update (s.attendanceRecords a) (now / ONE_DAY)
          ⟨now, true, (s.students a).matricNumber⟩),
      attendanceCount := Function.update s.attendanceCount a
        (s.attendanceCount a + 1) } := by
    unfold markAttendance
    rw [if_neg (by simp [hact]), if_neg (by simp [hreg]),
      if_neg (by simp [hfresh])]
  refine ⟨_, h1, ?_, ?_, ?_⟩
  · unfold markAttendance
    rw [if_neg (by simp [hact]), if_neg (by simp [hreg]),
      if_pos (by simp [Function.update_same, hsame])]
  · simp [Function.update_same, hcnt]
  · unfold markAttendance
    rw [if_neg (by simp [hact]), if_neg (by simp [hreg]),
      if_neg (by simp [Function.update_same, Function.update_apply,
        hdiff, hfresh])]
    exact ⟨_, rfl⟩

/-- C3 witness: identity `2`, registered in `wReg`, marks at time `0`,
is rejected at time `3600` (same day), and succeeds at `86400` (next
day). -/
theorem markAttendance_same_day_rejected_witness :
    wReg.isSystemActive = true ∧
    (wReg.students 2).isRegistered = true ∧
    wReg.attendanceCount 2 = 0 ∧
    (∃ s', markAttendance wReg 2 0 = .ok s' ∧
      markAttendance s' 2 3600 = .error .AlreadyMarked ∧
      s'.attendanceCount 2 = 1 ∧
      ∃ s'', markAttendance s' 2 86400 = .ok s'') :=
  ⟨rfl, rfl, rfl,
   markAttendance_same_day_rejected wReg 2 0 3600 86400 rfl rfl
     (fun _ => rfl) rfl (by decide) (by decide)⟩

/-- C4: whenever the active flag is false, `markAttendance` fails with
`SystemInactive` for every caller identity, registered or not; after the
owner toggles the flag back on, a registered identity with no record at
the relevant day-index can mark successfully again. -/
theorem markAttendance_inactive_rejected (s : State) (now : Nat)
    (hinact : s.isSystemActive = false) :
    (∀ a, markAttendance s a now = .error .SystemInactive) ∧
    (∀ s', toggleSystem s s.admin = .ok s' →
      ∀ a, (s'.students a).isRegistered = true →
        (s'.attendanceRecords a (now / ONE_DAY)).isPresent = false →
        ∃ s'', markAttendance s' a now = .ok s'') := by
  constructor
  · intro a
    unfold markAttendance
    rw [if_pos (by simp [hinact])]
  · intro s' htog a hreg hnot
    obtain ⟨-, hflag, -⟩ := toggleSystem_ok htog
    have hact' : s'.isSystemActive = true := by
      rw [hflag, hinact]
      rfl
    unfold markAttendance
    rw [if_neg (by simp [hact']), if_neg (by simp [hreg]),
      if_neg (by simp [hnot])]
    exact ⟨_, rfl⟩

/-- C4 witness: in `wInactive` (registered identity `2`, system off) every
identity is rejected with `SystemInactive`, and after the owner toggles
the system back on marking can succeed. -/
theorem markAttendance_inactive_rejected_witness :
    wInactive.isSystemActive = false ∧
    ((∀ a, markAttendance wInactive a 90000 = .error .SystemInactive) ∧
     (∀ s', toggleSystem wInactive wInactive.admin = .ok s' →
       ∀ a, (s'.students a).isRegistered = true →
         (s'.attendanceRecords a (90000 / ONE_DAY)).isPresent = false →
         ∃ s'', markAttendance s' a 90000 = .ok s'')) :=
  ⟨rfl, markAttendance_inactive_rejected wInactive 90000 rfl⟩

/-- C5: a caller other than the owner is rejected with `Unauthorized` by
both `registerUser` and `toggleSystem`, and the resulting state of either
failing call is exactly the pre-state. -/
theorem nonOwner_unauthorized (s : State) (caller user : Address)
    (matricNumber name : String) (now : Nat)
    (h : caller ≠ s.admin) :
    registerUser s caller user matricNumber name now =
      .error .Unauthorized ∧
    toggleSystem s caller = .error .Unauthorized ∧
    execOp s (.register caller user matricNumber name now) = s ∧
    execOp s (.toggle caller) = s := by
  have h1 : registerUser s caller user matricNumber name now =
      .error .Unauthorized := by
    unfold registerUser
    rw [if_pos h]
  have h2 : toggleSystem s caller = .error .Unauthorized := by
    unfold toggleSystem
    rw [if_pos h]
  refine ⟨h1, h2, ?_, ?_⟩
  · simp only [execOp, h1]
  · simp only [execOp, h2]

/-- C5 witness: caller `3` is not the owner of `wS0` and both
administrative calls are rejected leaving the state unchanged. -/
theorem nonOwner_unauthorized_witness :
    (3 : Address) ≠ wS0.admin ∧
    (registerUser wS0 3 4 "CSC002" "Bob" 100 = .error .Unauthorized ∧
     toggleSystem wS0 3 = .error .Unauthorized ∧
     execOp wS0 (.register 3 4 "CSC002" "Bob" 100) = wS0 ∧
     execOp wS0 (.toggle 3) = wS0) :=
  ⟨by decide, nonOwner_unauthorized wS0 3 4 "CSC002" "Bob" 100 (by decide)⟩

/-- C6: in every reachable state the registration counter equals the
length of the registered-identity list; each successful registration
appends exactly one identity and increments the counter by exactly one,
and neither `markAttendance` nor `toggleSystem` changes either. -/
theorem registrationCount_eq_length (s : State) (h : Reachable s) :
    getRegistrationCount s = (getRegisteredUsers s).length ∧
    (∀ caller user matricNumber name now s',
      registerUser s caller user matricNumber name now = .ok s' →
        s'.registeredUsers = s.registeredUsers ++ [user] ∧
        s'.count = s.count + 1) ∧
    (∀ caller now s', markAttendance s caller now = .ok s' →
        s'.registeredUsers = s.registeredUsers ∧ s'.count = s.count) ∧
    (∀ caller s', toggleSystem s caller = .ok s' →
        s'.registeredUsers = s.registeredUsers ∧ s'.count = s.count) := by
  refine ⟨(reachable_inv h).countLen, ?_, ?_, ?_⟩
  · intro caller user matricNumber name now s' hok
    obtain ⟨-, -, -, -, -, -, -, -, -, -, -, -, hu, hc⟩ :=
      registerUser_ok hok
    exact ⟨hu, hc⟩
  · intro caller now s' hok
    obtain ⟨-, -, -, -, -, -, -, -, -, hu, hc⟩ := markAttendance_ok hok
    exact ⟨hu, hc⟩
  · intro caller s' hok
    obtain ⟨-, -, hview⟩ := toggleSystem_ok hok
    exact ⟨congrArg (fun t => t.2.2.2.2.2.1) hview,
           congrArg (fun t => t.2.2.2.2.2.2) hview⟩

/-- C6 witness: the claim instantiated on the ledger `wReg`, whose
counter is `1` and whose list is `[2]`. -/
theorem registrationCount_eq_length_witness :
    getRegistrationCount wReg = (getRegisteredUsers wReg).length ∧
    (∀ caller user matricNumber name now s',
      registerUser wReg caller user matricNumber name now = .ok s' →
        s'.registeredUsers = wReg.registeredUsers ++ [user] ∧
        s'.count = wReg.count + 1) ∧
    (∀ caller now s', markAttendance wReg caller now = .ok s' →
        s'.registeredUsers = wReg.registeredUsers ∧
        s'.count = wReg.count) ∧
    (∀ caller s', toggleSystem wReg caller = .ok s' →
        s'.registeredUsers = wReg.registeredUsers ∧
        s'.count = wReg.count) :=
  registrationCount_eq_length wReg
    (Reachable.step (Op.register 1 2 "CSC001" "Alice" 100)
      (Reachable.init 1))

/-- C7: a successful `markAttendance` call at time `now` buckets the new
record under the day-index `now / ONE_DAY` with `ONE_DAY = 86400`
(integer, i.e. floor, division), the stored record carries
`(now, true, matricNumber)`, lookup at that index reports presence, and
no other day-index or identity is touched. -/
theorem markAttendance_day_bucket (s : State) (caller : Address)
    (now : Nat) (s' : State)
    (hok : markAttendance s caller now = .ok s') :
    ONE_DAY = 86400 ∧
    s'.attendanceRecords caller (now / ONE_DAY) =
      ⟨now, true, (s.students caller).matricNumber⟩ ∧
    verifyAttendance s' caller (now / ONE_DAY) = true ∧
    (∀ d, d ≠ now / ONE_DAY →
      s'.attendanceRecords caller d = s.attendanceRecords caller d) ∧
    (∀ b, b ≠ caller → s'.attendanceRecords b = s.attendanceRecords b) := by
  obtain ⟨-, -, -, -, -, -, -, hrecords, -, -, -⟩ := markAttendance_ok hok
  refine ⟨rfl, ?_, ?_, ?_, ?_⟩
  · rw [hrecords, Function.update_same, Function.update_same]
  · rw [verifyAttendance, hrecords, Function.update_same,
      Function.update_same]
  · intro d hd
    rw [hrecords, Function.update_same, Function.update_apply, if_neg hd]
  · intro b hb
    rw [hrecords, Function.update_apply, if_neg hb]

/-- C7 witness: identity `2` marks at time `100000` in `wReg`; the record
lands at day-index `100000 / 86400 = 1`. -/
theorem markAttendance_day_bucket_witness :
    ONE_DAY = 86400 ∧
    wMarked.attendanceRecords 2 (100000 / ONE_DAY) =
      ⟨100000, true, (wReg.students 2).matricNumber⟩ ∧
    verifyAttendance wMarked 2 (100000 / ONE_DAY) = true ∧
    (∀ d, d ≠ 100000 / ONE_DAY →
      wMarked.attendanceRecords 2 d = wReg.attendanceRecords 2 d) ∧
    (∀ b, b ≠ 2 →
      wMarked.attendanceRecords b = wReg.attendanceRecords b) :=
  markAttendance_day_bucket wReg 2 100000 wMarked rfl

/-- C8: `toggleSystem` called by the owner flips exactly the active flag;
iterating the owner's toggle an even number of times restores the flag
and an odd number of times negates it, while every other state component
is unchanged by any number of calls. -/
theorem toggleSystem_involutive (s : State) (n : Nat) :
    toggleSystem s s.admin =
      .ok { s with isSystemActive := !s.isSystemActive } ∧
    (toggleByAdmin^[n] s).isSystemActive =
      (if Even n then s.isSystemActive else !s.isSystemActive) ∧
    nonFlagView (toggleByAdmin^[n] s) = nonFlagView s := by
  refine ⟨toggleSystem_admin s, ?_, ?_⟩
  · induction n with
    | zero => simp
    | succ k ih =>
      rw [Function.iterate_succ_apply', toggleByAdmin_eq]
      by_cases hk : Even k
      · have hk1 : ¬ Even (k + 1) := by
          simpa [Nat.even_add_one] using hk
        simp [ih, if_pos hk, if_neg hk1]
      · have hk1 : Even (k + 1) := Nat.even_add_one.mpr hk
        simp [ih, if_neg hk, if_pos hk1]
  · induction n with
    | zero => rfl
    | succ k ih =>
      rw [Function.iterate_succ_apply', toggleByAdmin_eq]
      exact ih

/-- C9: `registerUser` never reads the active flag: on a state whose flag
is forced to any value `b` it returns exactly the result it returns on
the original state, with the flag of any success state being `b`; in
particular the owner's valid, conflict-free registration succeeds while
the system is inactive. -/
theorem registerUser_ignores_flag (s : State) (b : Bool)
    (caller user : Address) (matricNumber name : String) (now : Nat) :
    registerUser { s with isSystemActive := b } caller user matricNumber
        name now =
      (registerUser s caller user matricNumber name now).map
        (fun t => { t with isSystemActive := b }) ∧
    (caller = s.admin → user ≠ 0 → matricNumber ≠ "" → name ≠ "" →
      (s.students user).isRegistered = false →
      s.matricToAddress matricNumber = 0 →
      ∃ t, registerUser { s with isSystemActive := false } caller user
          matricNumber name now = .ok t) := by
  constructor
  · unfold registerUser
    dsimp only
    split_ifs <;> rfl
  · intro hadm h0 hm hn hreg hbound
    unfold registerUser
    dsimp only
    rw [if_neg (by simp [hadm]), if_neg h0, if_neg hm, if_neg hn,
      if_neg (by simp [hreg]), if_neg (by simp [hbound])]
    exact ⟨_, rfl⟩

/-- C9 witness: the owner of a fresh inactive ledger registers identity
`2`; the call succeeds and agrees with the active-ledger run. -/
theorem registerUser_ignores_flag_witness :
    (registerUser { wS0 with isSystemActive := false } 1 2 "CSC001"
        "Alice" 100 =
      (registerUser wS0 1 2 "CSC001" "Alice" 100).map
        (fun t => { t with isSystemActive := false })) ∧
    (∃ t, registerUser { wS0 with isSystemActive := false } 1 2 "CSC001"
        "Alice" 100 = .ok t) :=
  ⟨(registerUser_ignores_flag wS0 false 1 2 "CSC001" "Alice" 100).1,
   (registerUser_ignores_flag wS0 false 1 2 "CSC001" "Alice" 100).2 rfl
     (by decide) (by decide) (by decide) rfl rfl⟩

/-- C10: in every reachable state the empty string is never bound as a
matric number, so both matric-number lookups fail with `NotFound` on
the empty string. -/
theorem empty_matric_unbound (s : State) (h : Reachable s) :
    s.matricToAddress "" = 0 ∧
    getStudentByMatric s "" = .error .NotFound ∧
    getStudentAddressByMatric s "" = .error .NotFound := by
  have h0 := (reachable_inv h).emptyUnbound
  refine ⟨h0, ?_, ?_⟩
  · simp [getStudentByMatric, h0]
  · simp [getStudentAddressByMatric, h0]

/-- C10 witness: the claim instantiated on `wReg`, a state with one
registration. -/
theorem empty_matric_unbound_witness :
    wReg.matricToAddress "" = 0 ∧
    getStudentByMatric wReg "" = .error .NotFound ∧
    getStudentAddressByMatric wReg "" = .error .NotFound :=
  empty_matric_unbound wReg
    (Reachable.step (Op.register 1 2 "CSC001" "Alice" 100)
      (Reachable.init 1))

end Attendance
